import Mathlib

/-!
Verification of the XR device-bridge subsystem: a shallow embedding of
the Android USB bridge (`VitureModule.kt`), the JNI layer
(`viture_jni.cpp`), and the application hook (`useViture`, the variant
stored as `src/unnamed/part_005`), together with theorems settling the
specification's testable properties.

Floating-point values crossing the bridge are modelled as exact
rationals; native/vendor status codes are integers where 0 is success.
-/

namespace XRBridge

/-- Scalar type used for values that are `float`/`double`/JS `number`
in the sources. -/
abbrev F := ℚ

/-- USB device descriptor: the fields of `android.hardware.usb.UsbDevice`
that `VitureModule.kt` reads. -/
structure UsbDevice where
  vendorId : Nat
  productId : Nat
deriving DecidableEq, Repr

/-- `VitureModule.VITURE_VENDOR_ID`. -/
def VITURE_VENDOR_ID : Nat := 0x35CA

/-- `VitureModule.VITURE_PRODUCT_IDS`. -/
def VITURE_PRODUCT_IDS : List Nat := [0x1011, 0x1012, 0x1013, 0x1014, 0x1015, 0x1016]

/-- `VitureNative.IMU_MODE_POSE`. -/
def IMU_MODE_POSE : Int := 1

/-- `VitureNative.IMU_FREQ_60HZ`. -/
def IMU_FREQ_60HZ : Int := 0

/-- `VitureNative.DEVICE_TYPE_GEN1`. -/
def DEVICE_TYPE_GEN1 : Int := 0

/-- `VitureNative.DEVICE_TYPE_GEN2`. -/
def DEVICE_TYPE_GEN2 : Int := 1

/-- `VitureNative.DEVICE_TYPE_CARINA`. -/
def DEVICE_TYPE_CARINA : Int := 2

/-- One live vendor provider object (`XRDeviceProviderHandle` in
`viture_jni.cpp`). `sid` is a ghost identity distinguishing distinct
allocations, so that destroy/recreate is observable. -/
structure NativeSession where
  sid : Nat
  productId : Nat
  fd : Nat
deriving DecidableEq, Repr

/-- The JNI layer's global state: `g_handle` and `g_callbackObj` in
`viture_jni.cpp`. `nextSid` feeds fresh identities to allocations. -/
structure JniState where
  handle : Option NativeSession
  nextSid : Nat
  callbackSet : Bool
deriving DecidableEq, Repr

/-- JNI state at process start: no handle, no callback registered. -/
def JniState.empty : JniState := ⟨none, 0, false⟩

/-- Observable native-boundary calls. `n…` constructors are entries into
the JNI functions (`VitureNative.…`); `v…` constructors are the vendor
`xr_device_provider_…` calls they forward to. -/
inductive NCall where
  | nCreate (productId fd : Nat)
  | nInit
  | nStart
  | nStop
  | nDestroy
  | nGetDeviceType
  | nOpenImu (mode freq : Int)
  | nCloseImu (mode : Int)
  | nSetCallback
  | nSetLogLevel (level : Int)
  | vCreate (sid : Nat)
  | vDestroy (sid : Nat)
  | vShutdown (sid : Nat)
  | vInit (sid : Nat)
  | vStart (sid : Nat)
  | vStop (sid : Nat)
  | vOpenImu (sid : Nat) (mode freq : Int)
  | vCloseImu (sid : Nat) (mode : Int)
  | requestPermission (productId : Nat)
deriving DecidableEq, Repr

/-- Responses of the host OS and of the vendor library during one
connection attempt (the non-deterministic environment of
`VitureModule.initialize`). -/
structure HostEnv where
  deviceList : List UsbDevice
  hasPermission : Bool
  openDeviceFd : Option Nat
  vendorCreateOk : Bool
  vendorInitResult : Int
  vendorStartResult : Int
  vendorOpenImuResult : Int
  deviceType : Int
deriving DecidableEq, Repr

/-- Embeds `Java_…_VitureNative_create` (viture_jni.cpp, lines 73-92):
if a provider handle already exists it is destroyed first
("Provider already exists, destroying first"), then a fresh provider is
created; on vendor failure the handle is left null and `false` returned. -/
def jniCreate (env : HostEnv) (productId fd : Nat) (j : JniState) :
    Bool × JniState × List NCall :=
  let entry := [NCall.nCreate productId fd]
  let cleared :=
    match j.handle with
    | some s => ({ j with handle := none }, entry ++ [NCall.vDestroy s.sid])
    | none => (j, entry)
  let j1 := cleared.1
  let t1 := cleared.2
  if env.vendorCreateOk then
    let s : NativeSession := ⟨j1.nextSid, productId, fd⟩
    (true, { j1 with handle := some s, nextSid := j1.nextSid + 1 },
      t1 ++ [NCall.vCreate s.sid])
  else
    (false, j1, t1)

/-- Embeds `Java_…_VitureNative_initialize`: returns -1 when no handle,
otherwise the vendor handshake result. -/
def jniInit (env : HostEnv) (j : JniState) : Int × List NCall :=
  match j.handle with
  | none => (-1, [NCall.nInit])
  | some s => (env.vendorInitResult, [NCall.nInit, NCall.vInit s.sid])

/-- Embeds `Java_…_VitureNative_start`. -/
def jniStart (env : HostEnv) (j : JniState) : Int × List NCall :=
  match j.handle with
  | none => (-1, [NCall.nStart])
  | some s => (env.vendorStartResult, [NCall.nStart, NCall.vStart s.sid])

/-- Modelled from the spec: `xr_device_provider_stop` lives in the
prebuilt vendor library, whose source is not in the repository; §4.3
fixes that "`stop` must be safe to call even if `start` never succeeded
or was already stopped (idempotent)", i.e. it reports success. -/
def vendorStop (_s : NativeSession) : Int := 0

/-- Modelled from the spec: `xr_device_provider_close_imu` is vendor
code not in the repository; §4.3 fixes that "`closeImu` on a mode that
was never opened is a no-op success". -/
def vendorCloseImu (_s : NativeSession) (_mode : Int) : Int := 0

/-- Embeds `Java_…_VitureNative_stop` (viture_jni.cpp, lines 122-126):
returns -1 when no handle has been created, otherwise forwards to the
vendor stop. -/
def jniStop (j : JniState) : Int × List NCall :=
  match j.handle with
  | none => (-1, [NCall.nStop])
  | some s => (vendorStop s, [NCall.nStop, NCall.vStop s.sid])

/-- Embeds `Java_…_VitureNative_closeImu` (viture_jni.cpp, lines
178-182): returns -1 when no handle has been created. -/
def jniCloseImu (mode : Int) (j : JniState) : Int × List NCall :=
  match j.handle with
  | none => (-1, [NCall.nCloseImu mode])
  | some s => (vendorCloseImu s mode, [NCall.nCloseImu mode, NCall.vCloseImu s.sid mode])

/-- Embeds `Java_…_VitureNative_openImu`. -/
def jniOpenImu (env : HostEnv) (mode freq : Int) (j : JniState) : Int × List NCall :=
  match j.handle with
  | none => (-1, [NCall.nOpenImu mode freq])
  | some s => (env.vendorOpenImuResult, [NCall.nOpenImu mode freq, NCall.vOpenImu s.sid mode freq])

/-- Embeds `Java_…_VitureNative_destroy` (viture_jni.cpp, lines
128-140): shuts down and destroys the provider when present, then drops
the callback global reference; a no-op on an absent handle. -/
def jniDestroy (j : JniState) : JniState × List NCall :=
  match j.handle with
  | some s =>
    ({ j with handle := none, callbackSet := false },
      [NCall.nDestroy, NCall.vShutdown s.sid, NCall.vDestroy s.sid])
  | none => ({ j with callbackSet := false }, [NCall.nDestroy])

/-- Embeds `Java_…_VitureNative_getDeviceType`. -/
def jniGetDeviceType (env : HostEnv) (j : JniState) : Int × List NCall :=
  match j.handle with
  | none => (-1, [NCall.nGetDeviceType])
  | some _ => (env.deviceType, [NCall.nGetDeviceType])

/-- Embeds `Java_…_VitureNative_setCallback`: records the single live
callback registration. -/
def jniSetCallback (j : JniState) : JniState × List NCall :=
  ({ j with callbackSet := true }, [NCall.nSetCallback])

/-- Orientation sample as relayed over the `onVitureIMU` channel
(`VitureModule.onImuData` payload / the hook's `IMUData`). -/
structure IMUData where
  timestamp : F
  roll : F
  pitch : F
  yaw : F
  quaternionW : F
  quaternionX : F
  quaternionY : F
  quaternionZ : F
deriving DecidableEq, Repr

/-- The map resolved by `VitureModule.getLastIMUData` (it carries the
seven cached components but no timestamp). -/
structure IMUSnapshot where
  roll : F
  pitch : F
  yaw : F
  quaternionW : F
  quaternionX : F
  quaternionY : F
  quaternionZ : F
deriving DecidableEq, Repr

/-- Mutable fields of `VitureModule` (VitureModule.kt, lines 34-46). -/
structure ModuleState where
  isInitialized : Bool
  imuEnabled : Bool
  connectedDevice : Option UsbDevice
  lastRoll : F
  lastPitch : F
  lastYaw : F
  lastQw : F
  lastQx : F
  lastQy : F
  lastQz : F
deriving DecidableEq, Repr

/-- `VitureModule` field initializers: not initialized, IMU off, no
device, zero angles, identity quaternion. -/
def ModuleState.fresh : ModuleState :=
  ⟨false, false, none, 0, 0, 0, 1, 0, 0, 0⟩

/-- Events emitted through the React Native event emitter
(`sendEvent` in VitureModule.kt): the `onVitureEvent` payloads
(connected / disconnected / permission_denied), the `onVitureIMU`
samples, and the `onVitureState` state changes. -/
inductive VEvent where
  | connected (deviceName : String) (deviceType : Int)
  | disconnected
  | permissionDenied
  | imu (d : IMUData)
  | stateChange (stateId value : Int)
deriving DecidableEq, Repr

/-- The map resolved by `VitureModule.initialize` /
`initializeDevice`. -/
structure InitResult where
  success : Bool
  code : Int
  message : String
  deviceName : Option String
  deviceType : Option Int
deriving DecidableEq, Repr

/-- A failure map: `success=false`, a code and a message, no device
info. -/
def failResult (code : Int) (message : String) : InitResult :=
  ⟨false, code, message, none, none⟩

/-- Outcome of a React Native promise: resolved with a value, or
rejected with an error code and message. -/
inductive PromiseOut (α : Type) where
  | resolved (value : α)
  | rejected (code message : String)
deriving DecidableEq, Repr

/-- Embeds the `deviceName` derivation in `initializeDevice`
(VitureModule.kt, lines 212-217). -/
def deviceNameOf (deviceType : Int) : String :=
  if deviceType = DEVICE_TYPE_GEN1 then "Viture One/Pro/Lite"
  else if deviceType = DEVICE_TYPE_GEN2 then "Viture Luma/Luma Pro/Beast"
  else if deviceType = DEVICE_TYPE_CARINA then "Viture Carina"
  else "Unknown Viture Device"

/-- Embeds `VitureModule.findVitureDevice`: first attached device whose
vendor id is `VITURE_VENDOR_ID` and whose product id is allow-listed. -/
def findVitureDevice (deviceList : List UsbDevice) : Option UsbDevice :=
  deviceList.find? (fun d =>
    d.vendorId == VITURE_VENDOR_ID && VITURE_PRODUCT_IDS.contains d.productId)

/-- Embeds `VitureModule.initializeDevice` (VitureModule.kt, lines
159-232): open USB → native create → set callback → set log level →
native initialize → native start; each failing step returns a failure
map immediately (no teardown of what was already created); on full
success sets `isInitialized`, emits the `connected` event and returns
the device info. -/
def initializeDevice (env : HostEnv) (device : UsbDevice) (m : ModuleState) (j : JniState) :
    InitResult × ModuleState × JniState × List NCall × List VEvent :=
  match env.openDeviceFd with
  | none => (failResult (-3) "Failed to open USB connection", m, j, [], [])
  | some fd =>
    let created := jniCreate env device.productId fd j
    let ok := created.1
    let j1 := created.2.1
    let t1 := created.2.2
    if ok = false then
      (failResult (-4) "Failed to create native provider", m, j1, t1, [])
    else
      let cb := jniSetCallback j1
      let j2 := cb.1
      let t2 := cb.2 ++ [NCall.nSetLogLevel 3]
      let ini := jniInit env j2
      if ini.1 ≠ 0 then
        (failResult ini.1 ("Native initialization failed: " ++ toString ini.1),
          m, j2, t1 ++ t2 ++ ini.2, [])
      else
        let st := jniStart env j2
        if st.1 ≠ 0 then
          (failResult st.1 ("Failed to start provider: " ++ toString st.1),
            m, j2, t1 ++ t2 ++ ini.2 ++ st.2, [])
        else
          let m1 := { m with isInitialized := true }
          let dt := jniGetDeviceType env j2
          let name := deviceNameOf dt.1
          (⟨true, 0, "Connected to " ++ name, some name, some dt.1⟩, m1, j2,
            t1 ++ t2 ++ ini.2 ++ st.2 ++ dt.2, [VEvent.connected name dt.1])

/-- Embeds the `@ReactMethod initialize` of `VitureModule`
(VitureModule.kt, lines 103-134): no matching device → resolve a
"not found" failure; device found → remember it, then either run
`initializeDevice` (permission already granted) or request permission
and resolve a "pending" failure. -/
def initializeModule (env : HostEnv) (m : ModuleState) (j : JniState) :
    InitResult × ModuleState × JniState × List NCall × List VEvent :=
  match findVitureDevice env.deviceList with
  | none =>
    (failResult (-1) "No Viture glasses found. Make sure they are connected via USB-C.",
      m, j, [], [])
  | some device =>
    let m1 := { m with connectedDevice := some device }
    if env.hasPermission then
      initializeDevice env device m1 j
    else
      (failResult (-2) "Requesting USB permission...", m1, j,
        [NCall.requestPermission device.productId], [])

/-- Embeds `VitureModule.handleDisconnect` (VitureModule.kt, lines
234-243): clears the initialized and IMU flags, destroys the native
provider (no separate stop call), forgets the device, and emits the
`disconnected` event. -/
def handleDisconnect (m : ModuleState) (j : JniState) :
    ModuleState × JniState × List NCall × List VEvent :=
  let m1 := { m with isInitialized := false, imuEnabled := false, connectedDevice := none }
  let d := jniDestroy j
  (m1, d.1, d.2, [VEvent.disconnected])

/-- Embeds the `ACTION_USB_DEVICE_DETACHED` branch of
`VitureModule.usbReceiver.onReceive` (VitureModule.kt, lines 70-81):
runs `handleDisconnect` exactly when the detached device's vendor id is
the Viture vendor id. -/
def onUsbDetached (device : Option UsbDevice) (m : ModuleState) (j : JniState) :
    ModuleState × JniState × List NCall × List VEvent :=
  match device with
  | some d =>
    if d.vendorId = VITURE_VENDOR_ID then handleDisconnect m j else (m, j, [], [])
  | none => (m, j, [], [])

/-- Embeds the `@ReactMethod release` of `VitureModule` (VitureModule.kt,
lines 245-257): native stop (result ignored), native destroy, clear the
flags and the remembered device, resolve `true`. -/
def releaseModule (m : ModuleState) (j : JniState) :
    PromiseOut Bool × ModuleState × JniState × List NCall :=
  let st := jniStop j
  let d := jniDestroy j
  let m1 := { m with isInitialized := false, imuEnabled := false, connectedDevice := none }
  (PromiseOut.resolved true, m1, d.1, st.2 ++ d.2)

/-- Embeds the `@ReactMethod setIMUEnabled` of `VitureModule`
(VitureModule.kt, lines 259-282): rejects with `NOT_INITIALIZED`
before any native call when not initialized; otherwise forwards to
openImu/closeImu and updates the flag on success. -/
def setIMUEnabled (env : HostEnv) (enabled : Bool) (m : ModuleState) (j : JniState) :
    PromiseOut Bool × ModuleState × JniState × List NCall :=
  if m.isInitialized = false then
    (PromiseOut.rejected "NOT_INITIALIZED" "SDK not initialized", m, j, [])
  else
    let r :=
      if enabled then jniOpenImu env IMU_MODE_POSE IMU_FREQ_60HZ j
      else jniCloseImu IMU_MODE_POSE j
    if r.1 = 0 then
      (PromiseOut.resolved enabled, { m with imuEnabled := enabled }, j, r.2)
    else
      (PromiseOut.rejected "IMU_ERROR"
        ("Failed to " ++ (if enabled then "enable" else "disable") ++ " IMU: " ++ toString r.1),
        m, j, r.2)

/-- Embeds the `@ReactMethod getLastIMUData` of `VitureModule`
(VitureModule.kt, lines 289-300): unconditionally resolves a map built
from the cached last-sample fields. -/
def getLastIMUData (m : ModuleState) : IMUSnapshot :=
  ⟨m.lastRoll, m.lastPitch, m.lastYaw, m.lastQw, m.lastQx, m.lastQy, m.lastQz⟩

/-- Embeds `VitureSDKWrapper.getLastIMUData`
(frontend/src/native/VitureSDK.ts): resolves null only when the native
module is unavailable, otherwise the module's map. -/
def wrapperGetLastIMUData (available : Bool) (m : ModuleState) : Option IMUSnapshot :=
  if available then some (getLastIMUData m) else none

/-- Embeds `VitureModule.onImuData` (VitureModule.kt, lines 313-335):
an array of at least 7 floats updates the cache and emits an
`onVitureIMU` event; a shorter array is ignored entirely. -/
def onImuData (data : List F) (timestamp : F) (m : ModuleState) :
    ModuleState × List VEvent :=
  if 7 ≤ data.length then
    let m1 := { m with
      lastRoll := data.getD 0 0, lastPitch := data.getD 1 0, lastYaw := data.getD 2 0,
      lastQw := data.getD 3 0, lastQx := data.getD 4 0, lastQy := data.getD 5 0,
      lastQz := data.getD 6 0 }
    (m1, [VEvent.imu ⟨timestamp, m1.lastRoll, m1.lastPitch, m1.lastYaw,
      m1.lastQw, m1.lastQx, m1.lastQy, m1.lastQz⟩])
  else
    (m, [])

/-- The hook's `orientationOffsetRef` value (src/unnamed/part_005,
line 73): a roll/pitch/yaw triple. -/
@[ext]
structure Offset3 where
  roll : F
  pitch : F
  yaw : F
deriving DecidableEq, Repr

/-- The `useViture` hook's state plus its `orientationOffsetRef`
(src/unnamed/part_005, lines 61-73). -/
structure HookState where
  isConnected : Bool
  isInitializing : Bool
  imuEnabled : Bool
  mode3D : Bool
  lastError : Option String
  imuData : Option IMUData
  deviceName : Option String
  orientationOffset : Offset3
deriving DecidableEq, Repr

/-- The hook state on mount with the native module available:
everything off, no sample, zero offset. -/
def HookState.mount : HookState :=
  ⟨false, false, false, false, none, none, none, ⟨0, 0, 0⟩⟩

/-- Embeds the hook's `onVitureIMU` listener (src/unnamed/part_005,
lines 82-94): stores the incoming sample with the orientation offset
subtracted from roll/pitch/yaw. -/
def hookOnVitureIMU (data : IMUData) (h : HookState) : HookState :=
  { h with imuData := some { data with
      roll := data.roll - h.orientationOffset.roll,
      pitch := data.pitch - h.orientationOffset.pitch,
      yaw := data.yaw - h.orientationOffset.yaw } }

/-- Embeds the hook's `resetOrientation` (src/unnamed/part_005, lines
230-243): when a sample is displayed, adds its roll/pitch/yaw to the
offset ref and zeroes the displayed angles; otherwise does nothing. -/
def resetOrientation (h : HookState) : HookState :=
  match h.imuData with
  | none => h
  | some d =>
    { h with
      orientationOffset := ⟨d.roll + h.orientationOffset.roll,
        d.pitch + h.orientationOffset.pitch,
        d.yaw + h.orientationOffset.yaw⟩,
      imuData := some { d with roll := 0, pitch := 0, yaw := 0 } }

/-- Embeds the hook's `disconnected` event branch (src/unnamed/part_005,
lines 111-119). -/
def hookOnDisconnected (h : HookState) : HookState :=
  { h with isConnected := false, imuEnabled := false, imuData := none, deviceName := none }

/-- Embeds the hook's `release` (src/unnamed/part_005, lines 194-209):
awaits the native module's release, then clears the connection state.
Neither `mode3D` nor `orientationOffsetRef` is touched. -/
def hookRelease (h : HookState) (m : ModuleState) (j : JniState) :
    HookState × ModuleState × JniState × List NCall :=
  let r := releaseModule m j
  ({ h with isConnected := false, imuEnabled := false, imuData := none, deviceName := none },
    r.2.1, r.2.2.1, r.2.2.2)

/-- User-visible history at the hook: either an `onVitureIMU` delivery
or a `resetOrientation` call. -/
inductive HookEv where
  | sample (d : IMUData)
  | reset
deriving DecidableEq, Repr

/-- One hook event applied to the hook state. -/
def hookStep (e : HookEv) (h : HookState) : HookState :=
  match e with
  | HookEv.sample d => hookOnVitureIMU d h
  | HookEv.reset => resetOrientation h

/-- A sequence of hook events applied in order. -/
def hookRun (es : List HookEv) (h : HookState) : HookState :=
  match es with
  | [] => h
  | e :: rest => hookRun rest (hookStep e h)

/-- Specification-side bookkeeping for C4: the roll/pitch/yaw values
captured by each effective `resetOrientation` along a run. -/
def capturedOffsets (es : List HookEv) (h : HookState) : List Offset3 :=
  match es with
  | [] => []
  | HookEv.reset :: rest =>
    match h.imuData with
    | some d => ⟨d.roll, d.pitch, d.yaw⟩ :: capturedOffsets rest (hookStep HookEv.reset h)
    | none => capturedOffsets rest (hookStep HookEv.reset h)
  | HookEv.sample d :: rest => capturedOffsets rest (hookStep (HookEv.sample d) h)

/-- Componentwise sum of a list of roll/pitch/yaw triples. -/
def sumOffsets (l : List Offset3) : Offset3 :=
  match l with
  | [] => ⟨0, 0, 0⟩
  | o :: rest =>
    let s := sumOffsets rest
    ⟨o.roll + s.roll, o.pitch + s.pitch, o.yaw + s.yaw⟩

/-- Modelled from the spec: the byte-level IMU wire parser lives in the
prebuilt vendor library (`libglasses`), whose source is not in the
repository; §6 fixes a little-endian IEEE-754 binary32 decoding of each
4-byte group. This returns the exact rational value of the encoded
float, mapping exponent 255 (infinities/NaNs) to 0. -/
def decodeF32 (b0 b1 b2 b3 : Nat) : F :=
  let bits : Nat := b0 + 256 * b1 + 65536 * b2 + 16777216 * b3
  let sign : F := if bits / 2 ^ 31 % 2 = 1 then -1 else 1
  let expo : Nat := bits / 2 ^ 23 % 256
  let frac : Nat := bits % 2 ^ 23
  if expo = 0 then sign * (frac : F) / 2 ^ 149
  else if expo = 255 then 0
  else sign * (2 ^ 23 + (frac : F)) * 2 ^ expo / 2 ^ 150

/-- The little-endian 32-bit float stored at byte offset `off` of a
block (bytes past the end read as 0; callers guard the length). -/
def floatAt (bytes : List Nat) (off : Nat) : F :=
  decodeF32 (bytes.getD off 0) (bytes.getD (off + 1) 0)
    (bytes.getD (off + 2) 0) (bytes.getD (off + 3) 0)

/-- Modelled from the spec: the vendor-side construction of an
Orientation Sample from a raw IMU data block (§6, "IMU sample wire
layout") — roll/pitch/yaw floats at byte offsets 0, 4, 8 for any block
of at least 20 bytes; quaternion w,x,y,z at offsets 20, 24, 28, 32 when
the block is at least 36 bytes, identity quaternion otherwise. -/
def parseImuBlock (bytes : List Nat) (timestamp : F) : Option IMUData :=
  if 36 ≤ bytes.length then
    some ⟨timestamp, floatAt bytes 0, floatAt bytes 4, floatAt bytes 8,
      floatAt bytes 20, floatAt bytes 24, floatAt bytes 28, floatAt bytes 32⟩
  else if 20 ≤ bytes.length then
    some ⟨timestamp, floatAt bytes 0, floatAt bytes 4, floatAt bytes 8, 1, 0, 0, 0⟩
  else
    none

/-! Concrete fixtures used by the counterexamples and witnesses. -/

/-- A Viture One attached over USB. -/
def devA : UsbDevice := ⟨0x35CA, 0x1011⟩

/-- An environment where every step succeeds: the device is attached,
permission is granted, USB opens with fd 7, and every vendor call
reports success; the hardware reports device type GEN2. -/
def envAllOK : HostEnv := ⟨[devA], true, some 7, true, 0, 0, 0, 1⟩

/-- The native session of an established connection. -/
def sessA : NativeSession := ⟨0, 0x1011, 7⟩

/-- Module state of an established connection. -/
def mConnected : ModuleState :=
  { ModuleState.fresh with isInitialized := true, connectedDevice := some devA }

/-- JNI state of an established connection. -/
def jConnected : JniState := ⟨some sessA, 1, true⟩

/-- An environment whose native handshake fails with status -5. -/
def envInitFail : HostEnv := ⟨[devA], true, some 7, true, -5, 0, 0, 1⟩

/-- An environment whose handshake succeeds but whose native start
fails with status -6. -/
def envStartFail : HostEnv := ⟨[devA], true, some 7, true, 0, -6, 0, 1⟩

/-- Module state after one relayed sample (5, 6, 7) with identity
quaternion. -/
def mStale : ModuleState := (onImuData [5, 6, 7, 1, 0, 0, 0] 10 ModuleState.fresh).1

/-- A 20-byte IMU block whose three leading floats are 1.5, -2.0 and
90.0 (little-endian IEEE-754 binary32). -/
def block20 : List Nat :=
  [0x00, 0x00, 0xC0, 0x3F, 0x00, 0x00, 0x00, 0xC0, 0x00, 0x00, 0xB4, 0x42,
   0, 0, 0, 0, 0, 0, 0, 0]

/-! Theorems settling the claims. -/

/-- C8: `setIMUEnabled(true)` while not initialized rejects synchronously
with `NOT_INITIALIZED` / "SDK not initialized", leaves the module and
JNI state unchanged, and makes no native call at all. -/
theorem c8_setimu_idle_rejects (env : HostEnv) (m : ModuleState) (j : JniState)
    (hIdle : m.isInitialized = false) :
    setIMUEnabled env true m j =
      (PromiseOut.rejected "NOT_INITIALIZED" "SDK not initialized", m, j, []) := by
  simp [setIMUEnabled, hIdle]

/-- Witness for C8 at the fresh (Idle) module state. -/
theorem c8_setimu_idle_rejects_witness :
    setIMUEnabled envAllOK true ModuleState.fresh JniState.empty =
      (PromiseOut.rejected "NOT_INITIALIZED" "SDK not initialized",
        ModuleState.fresh, JniState.empty, []) :=
  c8_setimu_idle_rejects envAllOK ModuleState.fresh JniState.empty rfl

/-- C9 counterexample: with no native handle created at all, the JNI
`stop` and `closeImu` entry points return -1 — a failure status, not
success — contradicting the claim that both return success. -/
theorem c9_counterexample :
    (jniStop JniState.empty).1 = -1 ∧ ¬(jniStop JniState.empty).1 = 0 ∧
      (jniCloseImu IMU_MODE_POSE JniState.empty).1 = -1 ∧
      ¬(jniCloseImu IMU_MODE_POSE JniState.empty).1 = 0 := by
  decide

/-- C9 amended: once a handle exists, `stop` on a never-started session
and `closeImu` on a never-opened mode return success (0, per the vendor
contract in the spec), but with no handle created both JNI entry points
return -1. -/
theorem c9_teardown_results (j : JniState) (s : NativeSession) (mode : Int)
    (hs : j.handle = some s) :
    (jniStop j).1 = 0 ∧ (jniCloseImu mode j).1 = 0 ∧
      (jniStop JniState.empty).1 = -1 ∧ (jniCloseImu mode JniState.empty).1 = -1 := by
  simp [jniStop, jniCloseImu, hs, vendorStop, vendorCloseImu, JniState.empty]

/-- Witness for C9 on a freshly created (never-started) session. -/
theorem c9_teardown_results_witness :
    (jniStop jConnected).1 = 0 ∧ (jniCloseImu IMU_MODE_POSE jConnected).1 = 0 ∧
      (jniStop JniState.empty).1 = -1 ∧
      (jniCloseImu IMU_MODE_POSE JniState.empty).1 = -1 :=
  c9_teardown_results jConnected sessA IMU_MODE_POSE rfl

/-- C10: an IMU callback carrying fewer than 7 floats leaves the
last-sample cache untouched and emits no event. -/
theorem c10_short_sample_dropped (data : List F) (timestamp : F) (m : ModuleState)
    (hshort : data.length < 7) :
    onImuData data timestamp m = (m, []) := by
  unfold onImuData
  rw [if_neg (by omega)]

/-- Witness for C10 on a 3-float sample. -/
theorem c10_short_sample_dropped_witness :
    onImuData [1, 2, 3] 5 ModuleState.fresh = (ModuleState.fresh, []) :=
  c10_short_sample_dropped [1, 2, 3] 5 ModuleState.fresh (by decide)

/-- C5: a block of at least 20 but fewer than 36 bytes parses to the
three leading floats with an identity quaternion, and the concrete
20-byte block carrying 1.5, -2.0, 90.0 yields exactly those angles with
quaternion (1,0,0,0). -/
theorem c5_short_block_identity (bytes : List Nat) (ts : F)
    (h20 : 20 ≤ bytes.length) (h36 : bytes.length < 36) :
    parseImuBlock bytes ts =
      some ⟨ts, floatAt bytes 0, floatAt bytes 4, floatAt bytes 8, 1, 0, 0, 0⟩ := by
  unfold parseImuBlock
  rw [if_neg (by omega), if_pos h20]

/-- Witness for C5: the 20-byte block with floats 1.5, -2.0, 90.0 gives
roll 3/2, pitch -2, yaw 90 and the identity quaternion. -/
theorem c5_short_block_identity_witness :
    parseImuBlock block20 0 = some ⟨0, 3 / 2, -2, 90, 1, 0, 0, 0⟩ := by
  rw [c5_short_block_identity block20 0 (by decide) (by decide)]
  norm_num [block20, floatAt, decodeF32, List.getD]

/-- C6 counterexample: after a sample (5,6,7) and a disconnect,
`getLastIMUData` resolves the stale cached sample (through the TS
wrapper: `some`, not `none`), and even before any sample it resolves
the zero defaults — the claim that it returns null in these situations
is false. -/
theorem c6_counterexample :
    wrapperGetLastIMUData true (handleDisconnect mStale jConnected).1 =
        some ⟨5, 6, 7, 1, 0, 0, 0⟩ ∧
      ¬wrapperGetLastIMUData true (handleDisconnect mStale jConnected).1 = none ∧
      wrapperGetLastIMUData true ModuleState.fresh = some ⟨0, 0, 0, 1, 0, 0, 0⟩ := by
  decide

/-- C6 amended: on Android the wrapper always resolves the module's
cached snapshot — zeros with identity quaternion before any sample, and
unchanged (stale) across a disconnect; no orientation offset is applied
on this path. -/
theorem c6_cache_semantics (m : ModuleState) (j : JniState) :
    wrapperGetLastIMUData true m = some (getLastIMUData m) ∧
      getLastIMUData ModuleState.fresh = ⟨0, 0, 0, 1, 0, 0, 0⟩ ∧
      getLastIMUData (handleDisconnect m j).1 = getLastIMUData m :=
  ⟨rfl, rfl, rfl⟩

/-- C1 counterexample: calling `initialize()` while already connected
(device attached, permission granted, all native steps succeeding)
destroys the existing native session (sid 0) and creates a second one
(sid 1) — the existing handle does not survive, contrary to the claimed
idempotence. -/
theorem c1_counterexample :
    NCall.vDestroy 0 ∈ (initializeModule envAllOK mConnected jConnected).2.2.2.1 ∧
      NCall.vCreate 1 ∈ (initializeModule envAllOK mConnected jConnected).2.2.2.1 ∧
      (initializeModule envAllOK mConnected jConnected).2.2.1.handle =
        some ⟨1, 0x1011, 7⟩ ∧
      ¬(initializeModule envAllOK mConnected jConnected).2.2.1.handle = some sessA := by
  decide

/-- C1 amended: `initialize()` while connected re-runs the full connect
sequence — the JNI create destroys the existing handle and allocates a
fresh session; when every step succeeds the call still returns success
and the state remains connected, but a second native session has been
created. -/
theorem c1_reconnect_replaces_session (env : HostEnv) (m : ModuleState) (j : JniState)
    (d : UsbDevice) (s : NativeSession) (fd : Nat)
    (hFind : findVitureDevice env.deviceList = some d)
    (hPerm : env.hasPermission = true)
    (hOpen : env.openDeviceFd = some fd)
    (hCreate : env.vendorCreateOk = true)
    (hInit : env.vendorInitResult = 0)
    (hStart : env.vendorStartResult = 0)
    (hConn : m.isInitialized = true)
    (hHandle : j.handle = some s) :
    (initializeModule env m j).1.success = true ∧
      (initializeModule env m j).2.1.isInitialized = true ∧
      (initializeModule env m j).2.2.1.handle = some ⟨j.nextSid, d.productId, fd⟩ ∧
      NCall.vDestroy s.sid ∈ (initializeModule env m j).2.2.2.1 ∧
      NCall.vCreate j.nextSid ∈ (initializeModule env m j).2.2.2.1 := by
  simp [initializeModule, hFind, hPerm, initializeDevice, hOpen, jniCreate, hHandle,
    hCreate, jniSetCallback, jniInit, jniStart, hInit, hStart, jniGetDeviceType]

/-- Witness for C1 on the concrete connected state. -/
theorem c1_reconnect_replaces_session_witness :
    (initializeModule envAllOK mConnected jConnected).1.success = true ∧
      (initializeModule envAllOK mConnected jConnected).2.1.isInitialized = true ∧
      (initializeModule envAllOK mConnected jConnected).2.2.1.handle =
        some ⟨jConnected.nextSid, devA.productId, 7⟩ ∧
      NCall.vDestroy sessA.sid ∈ (initializeModule envAllOK mConnected jConnected).2.2.2.1 ∧
      NCall.vCreate jConnected.nextSid ∈
        (initializeModule envAllOK mConnected jConnected).2.2.2.1 :=
  c1_reconnect_replaces_session envAllOK mConnected jConnected devA sessA 7
    (by decide) rfl rfl rfl rfl rfl rfl rfl

/-- C2 counterexample: a release from a connected hook state with 3D
mode on and orientation offset (1,2,3) leaves the 3D flag true and the
offset at (1,2,3) — neither is cleared, contrary to the claim. -/
theorem c2_counterexample :
    (hookRelease { HookState.mount with
        isConnected := true, mode3D := true, orientationOffset := ⟨1, 2, 3⟩ }
      mConnected jConnected).1.orientationOffset = ⟨1, 2, 3⟩ ∧
      ¬(hookRelease { HookState.mount with
          isConnected := true, mode3D := true, orientationOffset := ⟨1, 2, 3⟩ }
        mConnected jConnected).1.orientationOffset = ⟨0, 0, 0⟩ ∧
      (hookRelease { HookState.mount with
          isConnected := true, mode3D := true, orientationOffset := ⟨1, 2, 3⟩ }
        mConnected jConnected).1.mode3D = true := by
  decide

/-- C2 amended: `release()` from any state ends disconnected with the
IMU flag false, the displayed sample cleared, the native module reset
and the native handle destroyed — but the hook's 3D flag and the
Orientation Offset are left unchanged. -/
theorem c2_release_state (h : HookState) (m : ModuleState) (j : JniState) :
    (hookRelease h m j).1.isConnected = false ∧
      (hookRelease h m j).1.imuEnabled = false ∧
      (hookRelease h m j).1.imuData = none ∧
      (hookRelease h m j).1.deviceName = none ∧
      (hookRelease h m j).2.1.isInitialized = false ∧
      (hookRelease h m j).2.1.imuEnabled = false ∧
      (hookRelease h m j).2.1.connectedDevice = none ∧
      (hookRelease h m j).2.2.1.handle = none ∧
      (hookRelease h m j).1.mode3D = h.mode3D ∧
      (hookRelease h m j).1.orientationOffset = h.orientationOffset := by
  cases hj : j.handle <;>
    simp [hookRelease, releaseModule, jniStop, jniDestroy, hj]

/-- C3 counterexample: when the native handshake fails (status -5)
after a successful create, `initializeDevice` returns the failure but
leaves the freshly created handle allocated — it is not destroyed
before returning, contrary to the claim. -/
theorem c3_counterexample :
    (initializeDevice envInitFail devA ModuleState.fresh JniState.empty).1.success = false ∧
      (initializeDevice envInitFail devA ModuleState.fresh JniState.empty).1.code = -5 ∧
      (initializeDevice envInitFail devA ModuleState.fresh JniState.empty).2.2.1.handle =
        some ⟨0, 0x1011, 7⟩ ∧
      ¬(initializeDevice envInitFail devA ModuleState.fresh JniState.empty).2.2.1.handle =
        none := by
  decide

/-- C3 amended: when the permission-granted path fails at native
initialize or at native start, the failure result carries the
underlying status code and the step's human-readable message and the
module flag stays false (so the caller appears Idle), but the created
handle is left allocated rather than destroyed; a retry still succeeds
because the next create tears the leftover handle down first. -/
theorem c3_failure_keeps_handle (env env2 : HostEnv) (d : UsbDevice)
    (m : ModuleState) (j : JniState) (fd fd2 : Nat)
    (hOpen : env.openDeviceFd = some fd)
    (hCreate : env.vendorCreateOk = true)
    (hFail : env.vendorInitResult ≠ 0 ∨
      (env.vendorInitResult = 0 ∧ env.vendorStartResult ≠ 0))
    (hIdle : m.isInitialized = false)
    (hOpen2 : env2.openDeviceFd = some fd2)
    (hCreate2 : env2.vendorCreateOk = true)
    (hInit2 : env2.vendorInitResult = 0)
    (hStart2 : env2.vendorStartResult = 0) :
    (initializeDevice env d m j).1.success = false ∧
      ((env.vendorInitResult ≠ 0 ∧
          (initializeDevice env d m j).1.code = env.vendorInitResult ∧
          (initializeDevice env d m j).1.message =
            "Native initialization failed: " ++ toString env.vendorInitResult) ∨
        (env.vendorInitResult = 0 ∧
          (initializeDevice env d m j).1.code = env.vendorStartResult ∧
          (initializeDevice env d m j).1.message =
            "Failed to start provider: " ++ toString env.vendorStartResult)) ∧
      (initializeDevice env d m j).2.1.isInitialized = false ∧
      (initializeDevice env d m j).2.2.1.handle = some ⟨j.nextSid, d.productId, fd⟩ ∧
      (initializeDevice env2 d (initializeDevice env d m j).2.1
          (initializeDevice env d m j).2.2.1).1.success = true ∧
      NCall.vDestroy j.nextSid ∈
        (initializeDevice env2 d (initializeDevice env d m j).2.1
          (initializeDevice env d m j).2.2.1).2.2.2.1 := by
  rcases hFail with hc | ⟨h0, hs⟩
  · cases hj : j.handle <;>
      simp [initializeDevice, hOpen, jniCreate, hj, hCreate, jniSetCallback, jniInit,
        hc, hIdle, hOpen2, hCreate2, hInit2, hStart2, jniStart, jniGetDeviceType,
        failResult]
  · cases hj : j.handle <;>
      simp [initializeDevice, hOpen, jniCreate, hj, hCreate, jniSetCallback, jniInit,
        h0, hs, hIdle, hOpen2, hCreate2, hInit2, hStart2, jniStart, jniGetDeviceType,
        failResult]

/-- Witness for C3: handshake failure -5 on a fresh state and start
failure -6 on a fresh state, each leaving the handle allocated and each
followed by a successful retry. -/
theorem c3_failure_keeps_handle_witness :
    ((initializeDevice envInitFail devA ModuleState.fresh JniState.empty).1.success = false ∧
      ((envInitFail.vendorInitResult ≠ 0 ∧
          (initializeDevice envInitFail devA ModuleState.fresh JniState.empty).1.code =
            envInitFail.vendorInitResult ∧
          (initializeDevice envInitFail devA ModuleState.fresh JniState.empty).1.message =
            "Native initialization failed: " ++ toString envInitFail.vendorInitResult) ∨
        (envInitFail.vendorInitResult = 0 ∧
          (initializeDevice envInitFail devA ModuleState.fresh JniState.empty).1.code =
            envInitFail.vendorStartResult ∧
          (initializeDevice envInitFail devA ModuleState.fresh JniState.empty).1.message =
            "Failed to start provider: " ++ toString envInitFail.vendorStartResult)) ∧
      (initializeDevice envInitFail devA ModuleState.fresh
          JniState.empty).2.1.isInitialized = false ∧
      (initializeDevice envInitFail devA ModuleState.fresh JniState.empty).2.2.1.handle =
        some ⟨JniState.empty.nextSid, devA.productId, 7⟩ ∧
      (initializeDevice envAllOK devA
          (initializeDevice envInitFail devA ModuleState.fresh JniState.empty).2.1
          (initializeDevice envInitFail devA ModuleState.fresh
            JniState.empty).2.2.1).1.success = true ∧
      NCall.vDestroy JniState.empty.nextSid ∈
        (initializeDevice envAllOK devA
          (initializeDevice envInitFail devA ModuleState.fresh JniState.empty).2.1
          (initializeDevice envInitFail devA ModuleState.fresh
            JniState.empty).2.2.1).2.2.2.1) ∧
    ((initializeDevice envStartFail devA ModuleState.fresh JniState.empty).1.success = false ∧
      ((envStartFail.vendorInitResult ≠ 0 ∧
          (initializeDevice envStartFail devA ModuleState.fresh JniState.empty).1.code =
            envStartFail.vendorInitResult ∧
          (initializeDevice envStartFail devA ModuleState.fresh JniState.empty).1.message =
            "Native initialization failed: " ++ toString envStartFail.vendorInitResult) ∨
        (envStartFail.vendorInitResult = 0 ∧
          (initializeDevice envStartFail devA ModuleState.fresh JniState.empty).1.code =
            envStartFail.vendorStartResult ∧
          (initializeDevice envStartFail devA ModuleState.fresh JniState.empty).1.message =
            "Failed to start provider: " ++ toString envStartFail.vendorStartResult)) ∧
      (initializeDevice envStartFail devA ModuleState.fresh
          JniState.empty).2.1.isInitialized = false ∧
      (initializeDevice envStartFail devA ModuleState.fresh JniState.empty).2.2.1.handle =
        some ⟨JniState.empty.nextSid, devA.productId, 7⟩ ∧
      (initializeDevice envAllOK devA
          (initializeDevice envStartFail devA ModuleState.fresh JniState.empty).2.1
          (initializeDevice envStartFail devA ModuleState.fresh
            JniState.empty).2.2.1).1.success = true ∧
      NCall.vDestroy JniState.empty.nextSid ∈
        (initializeDevice envAllOK devA
          (initializeDevice envStartFail devA ModuleState.fresh JniState.empty).2.1
          (initializeDevice envStartFail devA ModuleState.fresh
            JniState.empty).2.2.1).2.2.2.1) :=
  ⟨c3_failure_keeps_handle envInitFail envAllOK devA ModuleState.fresh JniState.empty
      7 7 rfl rfl (Or.inl (by decide)) rfl rfl rfl rfl rfl,
   c3_failure_keeps_handle envStartFail envAllOK devA ModuleState.fresh JniState.empty
      7 7 rfl rfl (Or.inr ⟨rfl, by decide⟩) rfl rfl rfl rfl rfl⟩

/-- C7 counterexample: at a concrete connected state, the USB-detach
teardown makes no native `stop` call — its native-call trace is
`destroy` (shutdown + destroy) only, different from the trace of
`release()`, which stops first — so the detach teardown is not the same
as `release()`'s claimed stop-and-destroy. -/
theorem c7_counterexample :
    (onUsbDetached (some devA) mConnected jConnected).2.2.1 =
        [NCall.nDestroy, NCall.vShutdown 0, NCall.vDestroy 0] ∧
      NCall.nStop ∉ (onUsbDetached (some devA) mConnected jConnected).2.2.1 ∧
      NCall.nStop ∈ (releaseModule mConnected jConnected).2.2.2 ∧
      ¬(onUsbDetached (some devA) mConnected jConnected).2.2.1 =
        (releaseModule mConnected jConnected).2.2.2 := by
  decide

/-- C7 amended: a detach whose vendor id matches triggers
`handleDisconnect`: the connected and IMU flags are cleared, the native
session is destroyed (native shutdown + destroy, without a separate
stop call) and a `disconnected` event is emitted; the resulting module
and JNI states coincide with those after `release()`. -/
theorem c7_detach_teardown (m : ModuleState) (j : JniState) (d : UsbDevice)
    (s : NativeSession)
    (hv : d.vendorId = VITURE_VENDOR_ID) (hs : j.handle = some s) :
    (onUsbDetached (some d) m j).1.isInitialized = false ∧
      (onUsbDetached (some d) m j).1.imuEnabled = false ∧
      (onUsbDetached (some d) m j).1.connectedDevice = none ∧
      (onUsbDetached (some d) m j).2.1.handle = none ∧
      (onUsbDetached (some d) m j).2.2.1 =
        [NCall.nDestroy, NCall.vShutdown s.sid, NCall.vDestroy s.sid] ∧
      (onUsbDetached (some d) m j).2.2.2 = [VEvent.disconnected] ∧
      (onUsbDetached (some d) m j).1 = (releaseModule m j).2.1 ∧
      (onUsbDetached (some d) m j).2.1 = (releaseModule m j).2.2.1 := by
  simp [onUsbDetached, hv, handleDisconnect, jniDestroy, hs, releaseModule, jniStop]

/-- Witness for C7 at the concrete connected state. -/
theorem c7_detach_teardown_witness :
    (onUsbDetached (some devA) mConnected jConnected).1.isInitialized = false ∧
      (onUsbDetached (some devA) mConnected jConnected).1.imuEnabled = false ∧
      (onUsbDetached (some devA) mConnected jConnected).1.connectedDevice = none ∧
      (onUsbDetached (some devA) mConnected jConnected).2.1.handle = none ∧
      (onUsbDetached (some devA) mConnected jConnected).2.2.1 =
        [NCall.nDestroy, NCall.vShutdown sessA.sid, NCall.vDestroy sessA.sid] ∧
      (onUsbDetached (some devA) mConnected jConnected).2.2.2 = [VEvent.disconnected] ∧
      (onUsbDetached (some devA) mConnected jConnected).1 =
        (releaseModule mConnected jConnected).2.1 ∧
      (onUsbDetached (some devA) mConnected jConnected).2.1 =
        (releaseModule mConnected jConnected).2.2.1 :=
  c7_detach_teardown mConnected jConnected devA sessA rfl rfl

/-- Running a sequence with one more event at the end is running the
prefix and then stepping. -/
lemma hookRun_append (es : List HookEv) (e : HookEv) (h : HookState) :
    hookRun (es ++ [e]) h = hookStep e (hookRun es h) := by
  induction es generalizing h with
  | nil => rfl
  | cons e' rest ih => simp [hookRun, ih]

/-- The orientation offset after a run is the starting offset plus the
componentwise sum of the values captured by the resets of the run. -/
lemma hookRun_offset (es : List HookEv) (h : HookState) :
    (hookRun es h).orientationOffset =
      ⟨h.orientationOffset.roll + (sumOffsets (capturedOffsets es h)).roll,
       h.orientationOffset.pitch + (sumOffsets (capturedOffsets es h)).pitch,
       h.orientationOffset.yaw + (sumOffsets (capturedOffsets es h)).yaw⟩ := by
  induction es generalizing h with
  | nil => simp [hookRun, capturedOffsets, sumOffsets]
  | cons e rest ih =>
    cases e with
    | sample d =>
      rw [show hookRun (HookEv.sample d :: rest) h
            = hookRun rest (hookStep (HookEv.sample d) h) from rfl, ih]
      simp [capturedOffsets, hookStep, hookOnVitureIMU]
    | reset =>
      rw [show hookRun (HookEv.reset :: rest) h
            = hookRun rest (hookStep HookEv.reset h) from rfl, ih]
      cases hd : h.imuData with
      | none => simp [capturedOffsets, hd, hookStep, resetOrientation]
      | some d =>
        simp only [capturedOffsets, hd, hookStep, resetOrientation, sumOffsets,
          Offset3.mk.injEq]
        refine ⟨by ring, by ring, by ring⟩

/-- C4: (1) a sample relayed after any event history is displayed with
roll/pitch/yaw equal to the raw values minus the cumulative sum of the
offsets captured at each reset of the history; (2) each reset adds the
displayed roll/pitch/yaw onto the Orientation Offset, so the raw sample
it came from is subsequently displayed as zero. -/
theorem c4_offset_accumulation :
    (∀ (es : List HookEv) (raw : IMUData),
      (hookRun (es ++ [HookEv.sample raw]) HookState.mount).imuData =
        some { raw with
          roll := raw.roll - (sumOffsets (capturedOffsets es HookState.mount)).roll,
          pitch := raw.pitch - (sumOffsets (capturedOffsets es HookState.mount)).pitch,
          yaw := raw.yaw - (sumOffsets (capturedOffsets es HookState.mount)).yaw }) ∧
    (∀ (h : HookState) (d : IMUData), h.imuData = some d →
      (resetOrientation h).orientationOffset =
        ⟨d.roll + h.orientationOffset.roll, d.pitch + h.orientationOffset.pitch,
         d.yaw + h.orientationOffset.yaw⟩ ∧
      (hookOnVitureIMU { d with
          roll := d.roll + h.orientationOffset.roll,
          pitch := d.pitch + h.orientationOffset.pitch,
          yaw := d.yaw + h.orientationOffset.yaw } (resetOrientation h)).imuData =
        some { d with roll := 0, pitch := 0, yaw := 0 }) := by
  constructor
  · intro es raw
    rw [hookRun_append]
    simp only [hookStep, hookOnVitureIMU, hookRun_offset]
    simp [HookState.mount]
  · intro h d hd
    refine ⟨by simp [resetOrientation, hd], ?_⟩
    simp [hookOnVitureIMU, resetOrientation, hd]

/-- Witness for C4: a concrete history (sample (10,20,30), reset) and a
follow-up raw sample, plus the reset-capture fact at a concrete state. -/
theorem c4_offset_accumulation_witness :
    (hookRun ([HookEv.sample ⟨0, 10, 20, 30, 1, 0, 0, 0⟩, HookEv.reset]
        ++ [HookEv.sample ⟨1, 11, 22, 33, 1, 0, 0, 0⟩]) HookState.mount).imuData =
      some { (⟨1, 11, 22, 33, 1, 0, 0, 0⟩ : IMUData) with
        roll := 11 - (sumOffsets (capturedOffsets
          [HookEv.sample ⟨0, 10, 20, 30, 1, 0, 0, 0⟩, HookEv.reset] HookState.mount)).roll,
        pitch := 22 - (sumOffsets (capturedOffsets
          [HookEv.sample ⟨0, 10, 20, 30, 1, 0, 0, 0⟩, HookEv.reset] HookState.mount)).pitch,
        yaw := 33 - (sumOffsets (capturedOffsets
          [HookEv.sample ⟨0, 10, 20, 30, 1, 0, 0, 0⟩, HookEv.reset] HookState.mount)).yaw } ∧
    (resetOrientation { HookState.mount with
        imuData := some ⟨0, 10, 20, 30, 1, 0, 0, 0⟩ }).orientationOffset =
      ⟨10 + HookState.mount.orientationOffset.roll,
       20 + HookState.mount.orientationOffset.pitch,
       30 + HookState.mount.orientationOffset.yaw⟩ :=
  ⟨c4_offset_accumulation.1 [HookEv.sample ⟨0, 10, 20, 30, 1, 0, 0, 0⟩, HookEv.reset]
      ⟨1, 11, 22, 33, 1, 0, 0, 0⟩,
   (c4_offset_accumulation.2 { HookState.mount with
      imuData := some ⟨0, 10, 20, 30, 1, 0, 0, 0⟩ } ⟨0, 10, 20, 30, 1, 0, 0, 0⟩ rfl).1⟩

end XRBridge
